import Mathlib

/-
Shallow embedding of the fastbreak-event-dashboard core:
the event-with-venues write/read workflows (src/app/actions/events.ts,
bundled in src/types/database.ts of the snapshot), the error normalizer
(src/lib/error-handler.ts), the response envelope (src/lib/action-response.ts)
and the OAuth callback handler (src/app/auth/callback/route.ts).

The external backend (Supabase) is modelled by an explicit environment
(`Backend`) that fixes, per call site, whether the call succeeds or is
rejected with a message, together with a pure database state (`DB`) of the
two relations `events` and `event_venues`.  Each workflow returns the
response envelope, the resulting database state and the trace of backend
operations it issued, so that claims about which calls run (or do not run)
are statements about the trace.  Backend-generated ids are modelled by
counters; backend-managed timestamps are not modelled since no claim
mentions them.
-/

namespace Fastbreak

/-- Row of the `events` relation (interface Event in src/types/database.ts);
`created_at` and `updated_at` are backend-managed and unmodelled. -/
structure Event where
  id : Nat
  name : String
  date : String
  sport_type : String
  description : Option String
  created_by : String
deriving DecidableEq

/-- Row of the `event_venues` relation (interface EventVenue);
`created_at` is backend-managed and unmodelled. -/
structure EventVenue where
  id : Nat
  event_id : Nat
  venue_name : String
deriving DecidableEq

/-- interface EventWithVenues: an event together with its venues. -/
structure EventWithVenues where
  event : Event
  venues : List EventVenue
deriving DecidableEq

/-- The two backend relations plus id counters modelling backend id
generation. -/
structure DB where
  events : List Event
  venues : List EventVenue
  nextEventId : Nat
  nextVenueId : Nat
deriving DecidableEq

/-- ActionResponse from src/lib/action-response.ts:
success with data, or failure with an error string. -/
inductive ActionResponse (α : Type) where
  | success (data : α)
  | error (error : String)
deriving DecidableEq

def successResponse {α : Type} (data : α) : ActionResponse α := .success data

def errorResponse {α : Type} (e : String) : ActionResponse α := .error e

/-- A JavaScript `unknown` failure value, as far as handleDatabaseError
inspects it: either an instance of Error carrying a message, or any
non-Error value. -/
inductive JSUnknown where
  | error (message : String)
  | nonError
deriving DecidableEq

/-- String.prototype.includes: the pattern occurs contiguously in s. -/
def includesStr (s pat : String) : Bool := decide (pat.data <:+: s.data)

/-- handleDatabaseError from src/lib/error-handler.ts: heuristic
classification of a failure value by message substrings, checked in order. -/
def handleDatabaseError : JSUnknown → String
  | .error message =>
    if includesStr message "duplicate key" then "This record already exists"
    else if includesStr message "foreign key" then "Referenced record not found"
    else if includesStr message "not null" then "Required field is missing"
    else if includesStr message "unique constraint" then "This value already exists"
    else message
  | .nonError => "An unexpected error occurred"

/-- handleActionError from src/lib/error-handler.ts. -/
def handleActionError {α : Type} (e : JSUnknown) : ActionResponse α :=
  errorResponse (handleDatabaseError e)

/-- JavaScript truthiness of a string-or-absent value: both absence and the
empty string are falsy. -/
def truthy : Option String → Bool
  | none => false
  | some s => !(s == "")

/-- Lexicographic comparison of character lists; byte-wise string comparison
as the backend performs it when ordering by an ISO date string column. -/
def charListLe : List Char → List Char → Bool
  | [], _ => true
  | _ :: _, [] => false
  | a :: as, b :: bs =>
    if a < b then true else if b < a then false else charListLe as bs

/-- Comparison of events by their date column, ascending. -/
def dateLe (a b : Event) : Bool := charListLe a.date.data b.date.data

/-- Model of the backend sort `.order(date, ascending true)`: a stable sort
of the event rows by date ascending. -/
def orderByDateAsc (l : List Event) : List Event :=
  l.insertionSort (fun a b => dateLe a b = true)

/-- All venue rows of the given event id, in relation order; model of the
relational select `venues:event_venues(*)`. -/
def venuesOf (db : DB) (eid : Nat) : List EventVenue :=
  db.venues.filter (fun v => v.event_id == eid)

/-- Error message the backend client produces for `.single()` when the
filtered selection does not contain exactly one row. -/
def singleNoRowMsg : String :=
  "JSON object requested, multiple (or no) rows returned"

/-- Per-call-site behaviour of the external backend for one request:
`clientThrow` makes the first awaited call raise (caught by the catch block
of every operation); `authUser` is the outcome of auth.getUser, an error or
an optional principal id; the remaining fields inject a rejection message
into the corresponding query, or none for success. -/
structure Backend where
  clientThrow : Option JSUnknown
  authUser : Except String (Option String)
  selectError : Option String
  eventInsertError : Option String
  venuesInsertError : Option String
  eventUpdateError : Option String
  venuesDeleteError : Option String
  eventDeleteError : Option String

/-- Backend operations a workflow can issue, recorded in traces. -/
inductive Op where
  | authGetUser
  | eventInsert
  | venuesInsert
  | eventUpdate
  | venuesDelete
  | eventDelete
  | readById
deriving DecidableEq

/-- getEvents: select all events with venues, ordered by date ascending. -/
def getEvents (be : Backend) (db : DB) : ActionResponse (List EventWithVenues) :=
  match be.clientThrow with
  | some e => handleActionError e
  | none =>
    match be.selectError with
    | some msg => errorResponse msg
    | none =>
      successResponse ((orderByDateAsc db.events).map (fun e => ⟨e, venuesOf db e.id⟩))

/-- getEventById: select the event with the given id together with its
venues, through `.single()`, which rejects unless exactly one row matches. -/
def getEventById (be : Backend) (db : DB) (id : Nat) : ActionResponse EventWithVenues :=
  match be.clientThrow with
  | some e => handleActionError e
  | none =>
    match be.selectError with
    | some msg => errorResponse msg
    | none =>
      match db.events.filter (fun e => e.id == id) with
      | [e] => successResponse ⟨e, venuesOf db id⟩
      | _ => errorResponse singleNoRowMsg

/-- Model of the backend pattern match `ilike name %term%`: the term occurs
in the name up to case. -/
def nameIlike (e : Event) (term : String) : Bool :=
  decide ((term.data.map Char.toLower) <:+: (e.name.data.map Char.toLower))

/-- searchAndFilterEvents: optional case-insensitive substring filter on
name, optional exact filter on sport_type, then order by date ascending.
The guards mirror the JavaScript truthiness tests on the optional
parameters. -/
def searchAndFilterEvents (be : Backend) (db : DB)
    (searchTerm sportType : Option String) : ActionResponse (List EventWithVenues) :=
  match be.clientThrow with
  | some e => handleActionError e
  | none =>
    match be.selectError with
    | some msg => errorResponse msg
    | none =>
      let rows := db.events
      let rows := if truthy searchTerm then
          rows.filter (fun e => nameIlike e (searchTerm.getD "")) else rows
      let rows := if truthy sportType then
          rows.filter (fun e => e.sport_type == sportType.getD "") else rows
      successResponse ((orderByDateAsc rows).map (fun e => ⟨e, venuesOf db e.id⟩))

/-- VenueInput from src/lib/validations/event.ts. -/
structure VenueInput where
  venue_name : String
deriving DecidableEq

/-- CreateEventInput from src/lib/validations/event.ts. -/
structure CreateEventInput where
  name : String
  date : String
  sport_type : String
  description : Option String
  venues : List VenueInput
deriving DecidableEq

/-- UpdateEventInput from src/lib/validations/event.ts: every field of the
create input optional.  The schema also carries the event id, but
updateEvent takes the id as a separate argument and never reads it from the
input, so it is omitted here. -/
structure UpdateEventInput where
  name : Option String
  date : Option String
  sport_type : Option String
  description : Option String
  venues : Option (List VenueInput)
deriving DecidableEq

/-- Result of a write workflow: the response envelope, the backend state
after the operation, and the trace of backend operations issued. -/
structure WriteResult (α : Type) where
  resp : ActionResponse α
  db : DB
  trace : List Op
deriving DecidableEq

/-- Insert one venue row per input, referencing the given event id, with
backend-generated ids. -/
def insertVenues (db : DB) (eid : Nat) (vs : List VenueInput) : DB :=
  { db with
    venues := db.venues ++ vs.enum.map (fun p => ⟨db.nextVenueId + p.1, eid, p.2.venue_name⟩),
    nextVenueId := db.nextVenueId + vs.length }

/-- Shared tail of createEvent and updateEvent: re-read the event with its
venues through getEventById and wrap the outcome, as the source does with
`if not result.success return result` followed by
`successResponse result.data`. -/
def finishRead (be : Backend) (db : DB) (id : Nat) (tr : List Op) :
    WriteResult EventWithVenues :=
  match getEventById be db id with
  | .error msg => ⟨errorResponse msg, db, tr ++ [.readById]⟩
  | .success ewv => ⟨successResponse ewv, db, tr ++ [.readById]⟩

/-- createEvent: guard on the authenticated principal, insert the event row,
insert the venue rows, then re-read the event with venues. -/
def createEvent (be : Backend) (db : DB) (data : CreateEventInput) :
    WriteResult EventWithVenues :=
  match be.clientThrow with
  | some e => ⟨handleActionError e, db, []⟩
  | none =>
    match be.authUser with
    | .error _ => ⟨errorResponse "User not authenticated", db, [.authGetUser]⟩
    | .ok none => ⟨errorResponse "User not authenticated", db, [.authGetUser]⟩
    | .ok (some uid) =>
      match be.eventInsertError with
      | some msg => ⟨errorResponse msg, db, [.authGetUser, .eventInsert]⟩
      | none =>
        let eid := db.nextEventId
        let ev : Event := ⟨eid, data.name, data.date, data.sport_type, data.description, uid⟩
        let db1 : DB := { db with events := db.events ++ [ev], nextEventId := eid + 1 }
        match be.venuesInsertError with
        | some msg => ⟨errorResponse msg, db1, [.authGetUser, .eventInsert, .venuesInsert]⟩
        | none =>
          finishRead be (insertVenues db1 eid data.venues) eid
            [.authGetUser, .eventInsert, .venuesInsert]

/-- Apply the scalar part of an update input to an event row.  Absent fields
are dropped from the JSON patch, hence left unchanged; the id is never part
of the patch. -/
def applyUpdate (d : UpdateEventInput) (e : Event) : Event :=
  { e with
    name := d.name.getD e.name
    date := d.date.getD e.date
    sport_type := d.sport_type.getD e.sport_type
    description := match d.description with
      | some s => some s
      | none => e.description }

/-- updateEvent: patch the event row, then, only if a venues array is
provided, delete all venue rows of the event and insert the new set, then
re-read the event with venues. -/
def updateEvent (be : Backend) (db : DB) (id : Nat) (data : UpdateEventInput) :
    WriteResult EventWithVenues :=
  match be.clientThrow with
  | some e => ⟨handleActionError e, db, []⟩
  | none =>
    match be.eventUpdateError with
    | some msg => ⟨errorResponse msg, db, [.eventUpdate]⟩
    | none =>
      let db1 : DB :=
        { db with events := db.events.map (fun e => if e.id == id then applyUpdate data e else e) }
      match data.venues with
      | none => finishRead be db1 id [.eventUpdate]
      | some vs =>
        match be.venuesDeleteError with
        | some msg => ⟨errorResponse msg, db1, [.eventUpdate, .venuesDelete]⟩
        | none =>
          let db2 : DB := { db1 with venues := db1.venues.filter (fun v => !(v.event_id == id)) }
          match be.venuesInsertError with
          | some msg => ⟨errorResponse msg, db2, [.eventUpdate, .venuesDelete, .venuesInsert]⟩
          | none =>
            finishRead be (insertVenues db2 id vs) id
              [.eventUpdate, .venuesDelete, .venuesInsert]

/-- deleteEvent: delete the event row; the backend removes the dependent
venue rows through its cascading delete rule. -/
def deleteEvent (be : Backend) (db : DB) (id : Nat) : WriteResult Unit :=
  match be.clientThrow with
  | some e => ⟨handleActionError e, db, []⟩
  | none =>
    match be.eventDeleteError with
    | some msg => ⟨errorResponse msg, db, [.eventDelete]⟩
    | none =>
      ⟨successResponse (),
        { db with
          events := db.events.filter (fun e => !(e.id == id))
          venues := db.venues.filter (fun v => !(v.event_id == id)) },
        [.eventDelete]⟩

/-- Query parameters of the OAuth callback request; none models an absent
parameter (searchParams.get returning null). -/
structure CallbackParams where
  code : Option String
  error : Option String
  error_description : Option String
  next : Option String

/-- Outcome of auth.exchangeCodeForSession for the presented code: a
rejection, success with or without a session, or a raised exception. -/
inductive ExchangeOutcome where
  | exchangeError (message : String)
  | sessionCreated
  | noSession
  | thrown (e : JSUnknown)

/-- The redirect a callback branch produces: the error-display route with an
error code and description, or a plain path. -/
inductive RedirectTarget where
  | authCodeError (error : String) (description : String)
  | path (next : String)
deriving DecidableEq

/-- GET of src/app/auth/callback/route.ts: priority decision tree over the
query parameters, producing exactly one redirect. -/
def callbackGET (p : CallbackParams) (ex : ExchangeOutcome) : RedirectTarget :=
  let next := p.next.getD "/dashboard"
  if truthy p.error then
    .authCodeError (p.error.getD "") (p.error_description.getD "")
  else if truthy p.code then
    match ex with
    | .exchangeError msg => .authCodeError "exchange_failed" msg
    | .sessionCreated => .path next
    | .noSession => .authCodeError "no_session" "No session was created"
    | .thrown e =>
      .authCodeError "unexpected"
        (match e with | .error m => m | .nonError => "Unknown error")
  else
    .authCodeError "no_code" "No authorization code was provided"

/-- Stated from the words of the spec, section 4.6, for comparison with
searchAndFilterEvents: keep exactly the events satisfying the conjunction of
the present predicates, where a present searchTerm means case-insensitive
substring match on name and a present sportType means exact equality on
sport_type, an absent predicate is no constraint, and the survivors are
ordered by date ascending. -/
def searchFilterSpec (db : DB) (searchTerm sportType : Option String) :
    List EventWithVenues :=
  (orderByDateAsc (db.events.filter (fun e =>
    (match searchTerm with | none => true | some t => nameIlike e t) &&
    (match sportType with | none => true | some s => e.sport_type == s)))).map
    (fun e => ⟨e, venuesOf db e.id⟩)

/-- Whether a response is the success variant; separates the two variants of
the envelope without naming the payload. -/
def isSuccess {α : Type} : ActionResponse α → Bool
  | .success _ => true
  | .error _ => false

/-- The backend injects no thrown value that the normalizer would map to the
authentication guard message; rules out the degenerate backend whose raised
Error message is literally that string. -/
def throwNotAuthMsg (be : Backend) : Prop :=
  ∀ v, be.clientThrow = some v → handleDatabaseError v ≠ "User not authenticated"

/-! Concrete fixtures used by the witness theorems. -/

/-- A backend on which every call succeeds and the principal is u1. -/
def beOK : Backend := ⟨none, Except.ok (some "u1"), none, none, none, none, none, none⟩

/-- A small two-event, two-venue database state. -/
def dbW : DB :=
  ⟨[⟨1, "Alpha Cup", "2025-05-01", "Soccer", none, "u1"⟩,
    ⟨2, "beta match", "2025-01-01", "Tennis", none, "u1"⟩],
   [⟨1, 1, "V1"⟩, ⟨2, 2, "V2"⟩], 3, 3⟩

/-- A valid create input with one venue. -/
def cinW : CreateEventInput := ⟨"5v5 League", "2025-03-01", "Soccer", none, [⟨"Field A"⟩]⟩

/-- An update input replacing the venues with two new ones. -/
def uinW : UpdateEventInput := ⟨some "Gamma", none, none, none, some [⟨"W1"⟩, ⟨"W2"⟩]⟩

/-- An update input that omits the venues field. -/
def uinNoVen : UpdateEventInput := ⟨some "Gamma", none, none, none, none⟩

/-! Helper lemmas about the date ordering. -/

theorem charListLe_total : ∀ a b : List Char, charListLe a b = true ∨ charListLe b a = true
  | [], _ => Or.inl rfl
  | _ :: _, [] => Or.inr rfl
  | a :: as, b :: bs => by
    by_cases hab : a < b
    · left; simp [charListLe, hab]
    · by_cases hba : b < a
      · right; simp [charListLe, hba]
      · rcases charListLe_total as bs with h | h
        · left; simp [charListLe, hab, hba, h]
        · right; simp [charListLe, hab, hba, h]

theorem charListLe_trans : ∀ a b c : List Char,
    charListLe a b = true → charListLe b c = true → charListLe a c = true
  | [], _, _, _, _ => rfl
  | _ :: _, [], _, h1, _ => by simp [charListLe] at h1
  | _ :: _, _ :: _, [], _, h2 => by simp [charListLe] at h2
  | a :: as, b :: bs, c :: cs, h1, h2 => by
    simp only [charListLe] at h1 h2 ⊢
    by_cases hab : a < b
    · by_cases hbc : b < c
      · simp [lt_trans hab hbc]
      · by_cases hcb : c < b
        · simp [hbc, hcb] at h2
        · have : b = c := le_antisymm (le_of_not_lt hcb) (le_of_not_lt hbc)
          subst this
          simp [hab]
    · by_cases hba : b < a
      · simp [hab, hba] at h1
      · have : a = b := le_antisymm (le_of_not_lt hba) (le_of_not_lt hab)
        subst this
        simp only [lt_irrefl, if_false] at h1
        by_cases hac : a < c
        · simp [hac]
        · by_cases hca : c < a
          · simp [hac, hca] at h2
          · have : a = c := le_antisymm (le_of_not_lt hca) (le_of_not_lt hac)
            subst this
            simp only [lt_irrefl, if_false] at h2 ⊢
            exact charListLe_trans as bs cs h1 h2

theorem orderByDateAsc_sorted (l : List Event) :
    (orderByDateAsc l).Pairwise (fun a b => dateLe a b = true) := by
  haveI : IsTotal Event (fun a b => dateLe a b = true) :=
    ⟨fun a b => charListLe_total a.date.data b.date.data⟩
  haveI : IsTrans Event (fun a b => dateLe a b = true) :=
    ⟨fun a b c => charListLe_trans a.date.data b.date.data c.date.data⟩
  exact List.sorted_insertionSort (fun a b => dateLe a b = true) l


/-! Helper lemmas about finishRead and getEventById error sources. -/

theorem finishRead_trace (be : Backend) (db : DB) (id : Nat) (tr : List Op) :
    (finishRead be db id tr).trace = tr ++ [.readById] := by
  unfold finishRead
  rcases h : getEventById be db id with d | m <;> simp

theorem finishRead_db (be : Backend) (db : DB) (id : Nat) (tr : List Op) :
    (finishRead be db id tr).db = db := by
  unfold finishRead
  rcases h : getEventById be db id with d | m <;> simp

theorem getEventById_error_msgs (be : Backend) (db : DB) (id : Nat) (msg : String)
    (h : getEventById be db id = errorResponse msg) :
    (∃ v, be.clientThrow = some v ∧ msg = handleDatabaseError v) ∨
    be.selectError = some msg ∨ msg = singleNoRowMsg := by
  unfold getEventById at h
  rcases hct : be.clientThrow with _ | v
  · rcases hsel : be.selectError with _ | m
    · simp [hct, hsel] at h
      rcases hf : db.events.filter (fun e => e.id == id) with _ | ⟨e, rest⟩
      · simp [hf, errorResponse] at h
        exact Or.inr (Or.inr h.symm)
      · rcases rest with _ | _
        · simp [hf, successResponse, errorResponse] at h
        · simp [hf, errorResponse] at h
          exact Or.inr (Or.inr h.symm)
    · simp [hct, hsel, errorResponse] at h
      exact Or.inr (Or.inl (congrArg some h))
  · simp [hct, handleActionError, errorResponse] at h
    exact Or.inl ⟨v, rfl, h.symm⟩

theorem finishRead_resp_ne_auth (be : Backend) (db : DB) (id : Nat) (tr : List Op)
    (hthrow : be.clientThrow = none)
    (h4 : be.selectError ≠ some "User not authenticated") :
    (finishRead be db id tr).resp ≠ errorResponse "User not authenticated" := by
  unfold finishRead
  rcases h : getEventById be db id with d | m
  · simp [successResponse, errorResponse]
  · simp only [errorResponse]
    intro hc
    have hm : m = "User not authenticated" := by injection hc
    subst hm
    rcases getEventById_error_msgs be db id _ h with ⟨v, hv, _⟩ | hsel | hs
    · rw [hthrow] at hv; exact Option.noConfusion hv
    · exact h4 hsel
    · exact absurd hs (by decide)

/-! Claim theorems. -/

/-- C1: when the authenticated event insert succeeds and the venue insert is
rejected, createEvent returns the error envelope with the rejection message,
the event row stays committed in the store, the venues relation is
untouched, and neither a compensating event delete nor the final re-read is
issued. -/
theorem createEvent_venueInsertFailure_keepsEventRow
    (be : Backend) (db : DB) (data : CreateEventInput) (uid msg : String)
    (hthrow : be.clientThrow = none)
    (hauth : be.authUser = .ok (some uid))
    (hins : be.eventInsertError = none)
    (hven : be.venuesInsertError = some msg) :
    (createEvent be db data).resp = errorResponse msg ∧
    (createEvent be db data).db.events =
      db.events ++ [⟨db.nextEventId, data.name, data.date, data.sport_type, data.description, uid⟩] ∧
    (createEvent be db data).db.venues = db.venues ∧
    (createEvent be db data).trace = [.authGetUser, .eventInsert, .venuesInsert] ∧
    Op.eventDelete ∉ (createEvent be db data).trace ∧
    Op.readById ∉ (createEvent be db data).trace := by
  simp [createEvent, hthrow, hauth, hins, hven, errorResponse]

/-- Witness for C1 at a concrete backend, database and input. -/
theorem createEvent_venueInsertFailure_keepsEventRow_witness :
    ({ beOK with venuesInsertError := some "venues down" } : Backend).clientThrow = none ∧
    ({ beOK with venuesInsertError := some "venues down" } : Backend).authUser = .ok (some "u1") ∧
    ({ beOK with venuesInsertError := some "venues down" } : Backend).eventInsertError = none ∧
    ({ beOK with venuesInsertError := some "venues down" } : Backend).venuesInsertError = some "venues down" ∧
    ((createEvent { beOK with venuesInsertError := some "venues down" } dbW cinW).resp =
        errorResponse "venues down" ∧
      (createEvent { beOK with venuesInsertError := some "venues down" } dbW cinW).db.events =
        dbW.events ++
          [⟨dbW.nextEventId, cinW.name, cinW.date, cinW.sport_type, cinW.description, "u1"⟩] ∧
      (createEvent { beOK with venuesInsertError := some "venues down" } dbW cinW).db.venues =
        dbW.venues ∧
      (createEvent { beOK with venuesInsertError := some "venues down" } dbW cinW).trace =
        [.authGetUser, .eventInsert, .venuesInsert] ∧
      Op.eventDelete ∉ (createEvent { beOK with venuesInsertError := some "venues down" } dbW cinW).trace ∧
      Op.readById ∉ (createEvent { beOK with venuesInsertError := some "venues down" } dbW cinW).trace) :=
  ⟨rfl, rfl, rfl, rfl,
    createEvent_venueInsertFailure_keepsEventRow
      { beOK with venuesInsertError := some "venues down" } dbW cinW "u1" "venues down"
      rfl rfl rfl rfl⟩

/-- C2: with no authenticated principal, whether the user lookup errors or
yields no user, createEvent returns the envelope with message User not
authenticated, leaves the store unchanged, and issues neither insert. -/
theorem createEvent_unauthenticated_noWrites
    (beN beE : Backend) (db : DB) (data : CreateEventInput) (m : String)
    (hN1 : beN.clientThrow = none) (hN2 : beN.authUser = .ok none)
    (hE1 : beE.clientThrow = none) (hE2 : beE.authUser = .error m) :
    (createEvent beN db data).resp = errorResponse "User not authenticated" ∧
    (createEvent beN db data).db = db ∧
    (createEvent beN db data).trace = [.authGetUser] ∧
    Op.eventInsert ∉ (createEvent beN db data).trace ∧
    Op.venuesInsert ∉ (createEvent beN db data).trace ∧
    (createEvent beE db data).resp = errorResponse "User not authenticated" ∧
    (createEvent beE db data).db = db ∧
    (createEvent beE db data).trace = [.authGetUser] := by
  refine ⟨?_, ?_, ?_, ?_, ?_, ?_, ?_, ?_⟩ <;>
    simp [createEvent, hN1, hN2, hE1, hE2, errorResponse]

/-- Witness for C2 at a concrete backend, database and input. -/
theorem createEvent_unauthenticated_noWrites_witness :
    ({ beOK with authUser := .ok none } : Backend).clientThrow = none ∧
    ({ beOK with authUser := .ok none } : Backend).authUser = .ok none ∧
    ({ beOK with authUser := .error "auth down" } : Backend).clientThrow = none ∧
    ({ beOK with authUser := .error "auth down" } : Backend).authUser = .error "auth down" ∧
    ((createEvent { beOK with authUser := .ok none } dbW cinW).resp =
        errorResponse "User not authenticated" ∧
      (createEvent { beOK with authUser := .ok none } dbW cinW).db = dbW ∧
      (createEvent { beOK with authUser := .ok none } dbW cinW).trace = [.authGetUser] ∧
      Op.eventInsert ∉ (createEvent { beOK with authUser := .ok none } dbW cinW).trace ∧
      Op.venuesInsert ∉ (createEvent { beOK with authUser := .ok none } dbW cinW).trace ∧
      (createEvent { beOK with authUser := .error "auth down" } dbW cinW).resp =
        errorResponse "User not authenticated" ∧
      (createEvent { beOK with authUser := .error "auth down" } dbW cinW).db = dbW ∧
      (createEvent { beOK with authUser := .error "auth down" } dbW cinW).trace = [.authGetUser]) :=
  ⟨rfl, rfl, rfl, rfl,
    createEvent_unauthenticated_noWrites
      { beOK with authUser := .ok none } { beOK with authUser := .error "auth down" }
      dbW cinW "auth down" rfl rfl rfl rfl⟩

/-- C3: with a venues array provided, updateEvent replaces venues by
deleting all venue rows of the event and then inserting the new set; a
delete rejection is returned as the error envelope with no insert attempted
and the venues relation untouched, while a successful delete and insert
leave exactly the old rows of other events plus the new set. -/
theorem updateEvent_venueReplacement_deleteThenInsert
    (beF beO : Backend) (db : DB) (id : Nat) (data : UpdateEventInput)
    (vs : List VenueInput) (msg : String)
    (hv : data.venues = some vs)
    (hF1 : beF.clientThrow = none) (hF2 : beF.eventUpdateError = none)
    (hF3 : beF.venuesDeleteError = some msg)
    (hO1 : beO.clientThrow = none) (hO2 : beO.eventUpdateError = none)
    (hO3 : beO.venuesDeleteError = none) (hO4 : beO.venuesInsertError = none) :
    (updateEvent beF db id data).resp = errorResponse msg ∧
    (updateEvent beF db id data).trace = [.eventUpdate, .venuesDelete] ∧
    Op.venuesInsert ∉ (updateEvent beF db id data).trace ∧
    (updateEvent beF db id data).db.venues = db.venues ∧
    (updateEvent beO db id data).db.venues =
      db.venues.filter (fun v => !(v.event_id == id)) ++
        vs.enum.map (fun p => ⟨db.nextVenueId + p.1, id, p.2.venue_name⟩) ∧
    (updateEvent beO db id data).trace =
      [.eventUpdate, .venuesDelete, .venuesInsert, .readById] := by
  refine ⟨?_, ?_, ?_, ?_, ?_, ?_⟩
  · simp [updateEvent, hF1, hF2, hv, hF3, errorResponse]
  · simp [updateEvent, hF1, hF2, hv, hF3]
  · simp [updateEvent, hF1, hF2, hv, hF3]
  · simp [updateEvent, hF1, hF2, hv, hF3]
  · simp [updateEvent, hO1, hO2, hv, hO3, hO4, insertVenues, finishRead_db]
  · simp [updateEvent, hO1, hO2, hv, hO3, hO4, finishRead_trace]

/-- Witness for C3 at a concrete backend pair, database and input. -/
theorem updateEvent_venueReplacement_deleteThenInsert_witness :
    uinW.venues = some [⟨"W1"⟩, ⟨"W2"⟩] ∧
    ({ beOK with venuesDeleteError := some "delete down" } : Backend).clientThrow = none ∧
    ({ beOK with venuesDeleteError := some "delete down" } : Backend).eventUpdateError = none ∧
    ({ beOK with venuesDeleteError := some "delete down" } : Backend).venuesDeleteError =
      some "delete down" ∧
    beOK.clientThrow = none ∧ beOK.eventUpdateError = none ∧
    beOK.venuesDeleteError = none ∧ beOK.venuesInsertError = none ∧
    ((updateEvent { beOK with venuesDeleteError := some "delete down" } dbW 1 uinW).resp =
        errorResponse "delete down" ∧
      (updateEvent { beOK with venuesDeleteError := some "delete down" } dbW 1 uinW).trace =
        [.eventUpdate, .venuesDelete] ∧
      Op.venuesInsert ∉
        (updateEvent { beOK with venuesDeleteError := some "delete down" } dbW 1 uinW).trace ∧
      (updateEvent { beOK with venuesDeleteError := some "delete down" } dbW 1 uinW).db.venues =
        dbW.venues ∧
      (updateEvent beOK dbW 1 uinW).db.venues =
        dbW.venues.filter (fun v => !(v.event_id == 1)) ++
          ([⟨"W1"⟩, ⟨"W2"⟩] : List VenueInput).enum.map
            (fun p => ⟨dbW.nextVenueId + p.1, 1, p.2.venue_name⟩) ∧
      (updateEvent beOK dbW 1 uinW).trace =
        [.eventUpdate, .venuesDelete, .venuesInsert, .readById]) :=
  ⟨rfl, rfl, rfl, rfl, rfl, rfl, rfl, rfl,
    updateEvent_venueReplacement_deleteThenInsert
      { beOK with venuesDeleteError := some "delete down" } beOK dbW 1 uinW
      [⟨"W1"⟩, ⟨"W2"⟩] "delete down" rfl rfl rfl rfl rfl rfl rfl rfl⟩

/-- C4: an update input that omits the venues field leaves the venues
relation untouched: no delete and no insert is issued on it and the venue
set of the event, as a subsequent get-by-id reads it, is unchanged. -/
theorem updateEvent_omitVenues_framesVenues
    (be : Backend) (db : DB) (id : Nat) (data : UpdateEventInput)
    (hv : data.venues = none) :
    (updateEvent be db id data).db.venues = db.venues ∧
    Op.venuesDelete ∉ (updateEvent be db id data).trace ∧
    Op.venuesInsert ∉ (updateEvent be db id data).trace ∧
    venuesOf (updateEvent be db id data).db id = venuesOf db id := by
  unfold updateEvent
  rcases hct : be.clientThrow with _ | v
  · rcases hupd : be.eventUpdateError with _ | m
    · simp [hv, finishRead_db, finishRead_trace, venuesOf]
    · simp [venuesOf]
  · simp [venuesOf]

/-- Witness for C4 at a concrete backend, database and input. -/
theorem updateEvent_omitVenues_framesVenues_witness :
    uinNoVen.venues = none ∧
    ((updateEvent beOK dbW 1 uinNoVen).db.venues = dbW.venues ∧
      Op.venuesDelete ∉ (updateEvent beOK dbW 1 uinNoVen).trace ∧
      Op.venuesInsert ∉ (updateEvent beOK dbW 1 uinNoVen).trace ∧
      venuesOf (updateEvent beOK dbW 1 uinNoVen).db 1 = venuesOf dbW 1) :=
  ⟨rfl, updateEvent_omitVenues_framesVenues beOK dbW 1 uinNoVen rfl⟩

/-- C9: getEventById returns, as a success, exactly the single event whose
id equals the requested id together with its venue rows, and when no event
with the requested id exists it returns the error envelope of the
single-row read, which is not a success envelope. -/
theorem getEventById_exactMatch_notFoundError
    (be : Backend) (db : DB) (idF idM : Nat) (e : Event)
    (hthrow : be.clientThrow = none) (hsel : be.selectError = none)
    (hFound : db.events.filter (fun x => x.id == idF) = [e])
    (hMiss : db.events.filter (fun x => x.id == idM) = []) :
    getEventById be db idF = successResponse ⟨e, venuesOf db idF⟩ ∧
    e.id = idF ∧
    getEventById be db idM = errorResponse singleNoRowMsg ∧
    isSuccess (getEventById be db idM) = false := by
  have he : e ∈ db.events.filter (fun x => x.id == idF) := by
    rw [hFound]; exact List.mem_singleton.mpr rfl
  have hid : e.id = idF := by
    have := (List.mem_filter.mp he).2
    simpa using this
  refine ⟨?_, hid, ?_, ?_⟩
  · simp [getEventById, hthrow, hsel, hFound, successResponse]
  · simp [getEventById, hthrow, hsel, hMiss, errorResponse]
  · simp [getEventById, hthrow, hsel, hMiss, errorResponse, isSuccess]

/-- Witness for C9 at a concrete backend and database, with id 1 present and
id 9 absent. -/
theorem getEventById_exactMatch_notFoundError_witness :
    beOK.clientThrow = none ∧ beOK.selectError = none ∧
    dbW.events.filter (fun x => x.id == 1) =
      [⟨1, "Alpha Cup", "2025-05-01", "Soccer", none, "u1"⟩] ∧
    dbW.events.filter (fun x => x.id == 9) = [] ∧
    (getEventById beOK dbW 1 =
        successResponse ⟨⟨1, "Alpha Cup", "2025-05-01", "Soccer", none, "u1"⟩, venuesOf dbW 1⟩ ∧
      (⟨1, "Alpha Cup", "2025-05-01", "Soccer", none, "u1"⟩ : Event).id = 1 ∧
      getEventById beOK dbW 9 = errorResponse singleNoRowMsg ∧
      isSuccess (getEventById beOK dbW 9) = false) :=
  ⟨rfl, rfl, by decide, by decide,
    getEventById_exactMatch_notFoundError beOK dbW 1 9
      ⟨1, "Alpha Cup", "2025-05-01", "Soccer", none, "u1"⟩ rfl rfl (by decide) (by decide)⟩

/-- C5: with present parameters non-empty, searchAndFilterEvents equals the
spec-side query that filters by the conjunction of the present predicates
(case-insensitive substring on name, exact equality on sport_type, absent
means unconstrained) and orders by date ascending; with both parameters
absent it coincides with getEvents; and the returned list is pairwise
ordered by date ascending. -/
theorem searchAndFilterEvents_matchesSpec
    (be : Backend) (db : DB) (searchTerm sportType : Option String)
    (hthrow : be.clientThrow = none) (hsel : be.selectError = none)
    (hst : searchTerm ≠ some "") (hsp : sportType ≠ some "") :
    searchAndFilterEvents be db searchTerm sportType =
      successResponse (searchFilterSpec db searchTerm sportType) ∧
    searchAndFilterEvents be db none none = getEvents be db ∧
    (searchFilterSpec db searchTerm sportType).Pairwise
      (fun a b => dateLe a.event b.event = true) := by
  refine ⟨?_, ?_, ?_⟩
  · unfold searchAndFilterEvents searchFilterSpec
    rcases searchTerm with _ | t
    · rcases sportType with _ | s
      · simp [hthrow, hsel, truthy]
      · have hs : s ≠ "" := fun h => hsp (by rw [h])
        simp [hthrow, hsel, truthy, hs]
    · have ht : t ≠ "" := fun h => hst (by rw [h])
      rcases sportType with _ | s
      · simp [hthrow, hsel, truthy, ht]
      · have hs : s ≠ "" := fun h => hsp (by rw [h])
        simp [hthrow, hsel, truthy, ht, hs, List.filter_filter, Bool.and_comm]
  · unfold searchAndFilterEvents getEvents
    simp [hthrow, hsel, truthy]
  · unfold searchFilterSpec
    rw [List.pairwise_map]
    exact orderByDateAsc_sorted _

/-- Witness for C5 at a concrete backend, database and filter pair. -/
theorem searchAndFilterEvents_matchesSpec_witness :
    beOK.clientThrow = none ∧ beOK.selectError = none ∧
    (some "ALPHA" : Option String) ≠ some "" ∧
    (some "Soccer" : Option String) ≠ some "" ∧
    (searchAndFilterEvents beOK dbW (some "ALPHA") (some "Soccer") =
        successResponse (searchFilterSpec dbW (some "ALPHA") (some "Soccer")) ∧
      searchAndFilterEvents beOK dbW none none = getEvents beOK dbW ∧
      (searchFilterSpec dbW (some "ALPHA") (some "Soccer")).Pairwise
        (fun a b => dateLe a.event b.event = true)) :=
  ⟨rfl, rfl, by decide, by decide,
    searchAndFilterEvents_matchesSpec beOK dbW (some "ALPHA") (some "Soccer")
      rfl rfl (by decide) (by decide)⟩

/-- C6: the OAuth callback is a strict priority decision tree: a non-empty
provider error parameter redirects to the error route carrying the error
and its description, regardless of any code; otherwise a non-empty code is
exchanged and the outcome redirects to exchange_failed on rejection, to the
caller continuation (default dashboard) on a session, and to no_session on
a session-less success; with neither parameter the redirect carries
no_code. -/
theorem callbackGET_decisionTree
    (pE pC pN : CallbackParams) (ex : ExchangeOutcome) (e c mEx : String)
    (hE : pE.error = some e) (hEne : e ≠ "")
    (hCf : truthy pC.error = false) (hCc : pC.code = some c) (hCne : c ≠ "")
    (hNf : truthy pN.error = false) (hNcf : truthy pN.code = false) :
    callbackGET pE ex = .authCodeError e (pE.error_description.getD "") ∧
    callbackGET pC (.exchangeError mEx) = .authCodeError "exchange_failed" mEx ∧
    callbackGET pC .sessionCreated = .path (pC.next.getD "/dashboard") ∧
    callbackGET pC .noSession = .authCodeError "no_session" "No session was created" ∧
    callbackGET pN ex = .authCodeError "no_code" "No authorization code was provided" := by
  have het : truthy (some e) = true := by simp [truthy, hEne]
  have hct : truthy (some c) = true := by simp [truthy, hCne]
  refine ⟨?_, ?_, ?_, ?_, ?_⟩
  · simp [callbackGET, hE, het]
  · simp [callbackGET, hCf, hCc, hct]
  · simp [callbackGET, hCf, hCc, hct]
  · simp [callbackGET, hCf, hCc, hct]
  · simp [callbackGET, hNf, hNcf]

/-- Witness for C6 at concrete parameter sets: a provider error with a code
also present, a code-only request with a continuation path, and a request
with neither parameter. -/
theorem callbackGET_decisionTree_witness :
    (⟨some "zzz", some "access_denied", some "User cancelled", none⟩ : CallbackParams).error =
      some "access_denied" ∧
    ("access_denied" : String) ≠ "" ∧
    truthy (⟨some "authcode", none, none, some "/home"⟩ : CallbackParams).error = false ∧
    (⟨some "authcode", none, none, some "/home"⟩ : CallbackParams).code = some "authcode" ∧
    ("authcode" : String) ≠ "" ∧
    truthy (⟨none, none, none, none⟩ : CallbackParams).error = false ∧
    truthy (⟨none, none, none, none⟩ : CallbackParams).code = false ∧
    (callbackGET ⟨some "zzz", some "access_denied", some "User cancelled", none⟩ .sessionCreated =
        .authCodeError "access_denied"
          ((⟨some "zzz", some "access_denied", some "User cancelled", none⟩ :
            CallbackParams).error_description.getD "") ∧
      callbackGET ⟨some "authcode", none, none, some "/home"⟩ (.exchangeError "bad code") =
        .authCodeError "exchange_failed" "bad code" ∧
      callbackGET ⟨some "authcode", none, none, some "/home"⟩ .sessionCreated =
        .path ((⟨some "authcode", none, none, some "/home"⟩ : CallbackParams).next.getD "/dashboard") ∧
      callbackGET ⟨some "authcode", none, none, some "/home"⟩ .noSession =
        .authCodeError "no_session" "No session was created" ∧
      callbackGET ⟨none, none, none, none⟩ .sessionCreated =
        .authCodeError "no_code" "No authorization code was provided") :=
  ⟨rfl, by decide, rfl, rfl, by decide, rfl, rfl,
    callbackGET_decisionTree
      ⟨some "zzz", some "access_denied", some "User cancelled", none⟩
      ⟨some "authcode", none, none, some "/home"⟩
      ⟨none, none, none, none⟩ .sessionCreated
      "access_denied" "authcode" "bad code"
      rfl (by decide) rfl rfl (by decide) rfl rfl⟩

/-- C7: handleDatabaseError classifies an Error by message substrings in
order with first match winning, producing the four fixed messages, passes
an unmatched Error message through verbatim, and maps any non-Error value
to the generic fallback. -/
theorem handleDatabaseError_ordered_classification
    (m1 m2 m3 m4 m5 : String)
    (h1 : includesStr m1 "duplicate key" = true)
    (h2a : includesStr m2 "duplicate key" = false)
    (h2b : includesStr m2 "foreign key" = true)
    (h3a : includesStr m3 "duplicate key" = false)
    (h3b : includesStr m3 "foreign key" = false)
    (h3c : includesStr m3 "not null" = true)
    (h4a : includesStr m4 "duplicate key" = false)
    (h4b : includesStr m4 "foreign key" = false)
    (h4c : includesStr m4 "not null" = false)
    (h4d : includesStr m4 "unique constraint" = true)
    (h5a : includesStr m5 "duplicate key" = false)
    (h5b : includesStr m5 "foreign key" = false)
    (h5c : includesStr m5 "not null" = false)
    (h5d : includesStr m5 "unique constraint" = false) :
    handleDatabaseError (.error m1) = "This record already exists" ∧
    handleDatabaseError (.error m2) = "Referenced record not found" ∧
    handleDatabaseError (.error m3) = "Required field is missing" ∧
    handleDatabaseError (.error m4) = "This value already exists" ∧
    handleDatabaseError (.error m5) = m5 ∧
    handleDatabaseError .nonError = "An unexpected error occurred" := by
  refine ⟨?_, ?_, ?_, ?_, ?_, rfl⟩ <;> simp [handleDatabaseError, *]

/-- Witness for C7 at concrete messages; the first one contains both the
duplicate-key and the unique-constraint phrasing, showing the first match
wins. -/
theorem handleDatabaseError_ordered_classification_witness :
    includesStr "duplicate key value violates unique constraint" "duplicate key" = true ∧
    includesStr "violates foreign key constraint" "duplicate key" = false ∧
    includesStr "violates foreign key constraint" "foreign key" = true ∧
    includesStr "column is not null violation" "duplicate key" = false ∧
    includesStr "column is not null violation" "foreign key" = false ∧
    includesStr "column is not null violation" "not null" = true ∧
    includesStr "unique constraint broken" "duplicate key" = false ∧
    includesStr "unique constraint broken" "foreign key" = false ∧
    includesStr "unique constraint broken" "not null" = false ∧
    includesStr "unique constraint broken" "unique constraint" = true ∧
    includesStr "weird failure" "duplicate key" = false ∧
    includesStr "weird failure" "foreign key" = false ∧
    includesStr "weird failure" "not null" = false ∧
    includesStr "weird failure" "unique constraint" = false ∧
    (handleDatabaseError (.error "duplicate key value violates unique constraint") =
        "This record already exists" ∧
      handleDatabaseError (.error "violates foreign key constraint") =
        "Referenced record not found" ∧
      handleDatabaseError (.error "column is not null violation") =
        "Required field is missing" ∧
      handleDatabaseError (.error "unique constraint broken") = "This value already exists" ∧
      handleDatabaseError (.error "weird failure") = "weird failure" ∧
      handleDatabaseError .nonError = "An unexpected error occurred") :=
  ⟨by decide, by decide, by decide, by decide, by decide, by decide, by decide,
    by decide, by decide, by decide, by decide, by decide, by decide, by decide,
    handleDatabaseError_ordered_classification
      "duplicate key value violates unique constraint" "violates foreign key constraint"
      "column is not null violation" "unique constraint broken" "weird failure"
      (by decide) (by decide) (by decide) (by decide) (by decide) (by decide)
      (by decide) (by decide) (by decide) (by decide) (by decide) (by decide)
      (by decide) (by decide)⟩

/-- C8 counterexample: a backend rejection of the event insert whose message
contains the duplicate-key phrasing is surfaced verbatim by createEvent,
while the section 4.2 normalizer would map it to a different string, so the
returned envelope error does not equal the normalized error. -/
theorem createEvent_rejection_not_normalized_cex :
    (createEvent
        ⟨none, .ok (some "u1"), none,
          some "duplicate key value violates unique constraint", none, none, none, none⟩
        ⟨[], [], 1, 1⟩ ⟨"E", "2025-01-01", "Soccer", none, [⟨"V"⟩]⟩).resp =
      errorResponse "duplicate key value violates unique constraint" ∧
    handleDatabaseError (.error "duplicate key value violates unique constraint") =
      "This record already exists" ∧
    "duplicate key value violates unique constraint" ≠ "This record already exists" :=
  ⟨rfl, by decide, by decide⟩

/-- C8 amended: backend rejections returned through the result channel of
the workflow operations are surfaced verbatim as the envelope error, and
only values thrown past a call and caught at the operation boundary are
normalized through handleDatabaseError. -/
theorem backendRejections_surfaced_verbatim
    (beI beV beU beD beS beT : Backend) (db : DB) (id : Nat)
    (cdata : CreateEventInput) (udata : UpdateEventInput) (uid : String)
    (mI mV mU mD mS : String) (v : JSUnknown)
    (hI1 : beI.clientThrow = none) (hI2 : beI.authUser = .ok (some uid))
    (hI3 : beI.eventInsertError = some mI)
    (hV1 : beV.clientThrow = none) (hV2 : beV.authUser = .ok (some uid))
    (hV3 : beV.eventInsertError = none) (hV4 : beV.venuesInsertError = some mV)
    (hU1 : beU.clientThrow = none) (hU2 : beU.eventUpdateError = some mU)
    (hD1 : beD.clientThrow = none) (hD2 : beD.eventDeleteError = some mD)
    (hS1 : beS.clientThrow = none) (hS2 : beS.selectError = some mS)
    (hT : beT.clientThrow = some v) :
    (createEvent beI db cdata).resp = errorResponse mI ∧
    (createEvent beV db cdata).resp = errorResponse mV ∧
    (updateEvent beU db id udata).resp = errorResponse mU ∧
    (deleteEvent beD db id).resp = errorResponse mD ∧
    getEvents beS db = errorResponse mS ∧
    getEventById beS db id = errorResponse mS ∧
    searchAndFilterEvents beS db none none = errorResponse mS ∧
    (createEvent beT db cdata).resp = errorResponse (handleDatabaseError v) ∧
    (updateEvent beT db id udata).resp = errorResponse (handleDatabaseError v) ∧
    (deleteEvent beT db id).resp = errorResponse (handleDatabaseError v) ∧
    getEvents beT db = errorResponse (handleDatabaseError v) := by
  refine ⟨?_, ?_, ?_, ?_, ?_, ?_, ?_, ?_, ?_, ?_, ?_⟩
  · simp [createEvent, hI1, hI2, hI3]
  · simp [createEvent, hV1, hV2, hV3, hV4]
  · simp [updateEvent, hU1, hU2]
  · simp [deleteEvent, hD1, hD2]
  · simp [getEvents, hS1, hS2]
  · simp [getEventById, hS1, hS2]
  · simp [searchAndFilterEvents, hS1, hS2]
  · simp [createEvent, hT, handleActionError]
  · simp [updateEvent, hT, handleActionError]
  · simp [deleteEvent, hT, handleActionError]
  · simp [getEvents, hT, handleActionError]

/-- Witness for the amended C8 at concrete backends, one per rejected call,
plus one throwing backend. -/
theorem backendRejections_surfaced_verbatim_witness :
    ({ beOK with eventInsertError := some "mI" } : Backend).clientThrow = none ∧
    ({ beOK with eventInsertError := some "mI" } : Backend).authUser = .ok (some "u1") ∧
    ({ beOK with eventInsertError := some "mI" } : Backend).eventInsertError = some "mI" ∧
    ({ beOK with venuesInsertError := some "mV" } : Backend).clientThrow = none ∧
    ({ beOK with venuesInsertError := some "mV" } : Backend).authUser = .ok (some "u1") ∧
    ({ beOK with venuesInsertError := some "mV" } : Backend).eventInsertError = none ∧
    ({ beOK with venuesInsertError := some "mV" } : Backend).venuesInsertError = some "mV" ∧
    ({ beOK with eventUpdateError := some "mU" } : Backend).clientThrow = none ∧
    ({ beOK with eventUpdateError := some "mU" } : Backend).eventUpdateError = some "mU" ∧
    ({ beOK with eventDeleteError := some "mD" } : Backend).clientThrow = none ∧
    ({ beOK with eventDeleteError := some "mD" } : Backend).eventDeleteError = some "mD" ∧
    ({ beOK with selectError := some "mS" } : Backend).clientThrow = none ∧
    ({ beOK with selectError := some "mS" } : Backend).selectError = some "mS" ∧
    ({ beOK with clientThrow := some (.error "kaboom") } : Backend).clientThrow =
      some (.error "kaboom") ∧
    ((createEvent { beOK with eventInsertError := some "mI" } dbW cinW).resp =
        errorResponse "mI" ∧
      (createEvent { beOK with venuesInsertError := some "mV" } dbW cinW).resp =
        errorResponse "mV" ∧
      (updateEvent { beOK with eventUpdateError := some "mU" } dbW 1 uinW).resp =
        errorResponse "mU" ∧
      (deleteEvent { beOK with eventDeleteError := some "mD" } dbW 1).resp =
        errorResponse "mD" ∧
      getEvents { beOK with selectError := some "mS" } dbW = errorResponse "mS" ∧
      getEventById { beOK with selectError := some "mS" } dbW 1 = errorResponse "mS" ∧
      searchAndFilterEvents { beOK with selectError := some "mS" } dbW none none =
        errorResponse "mS" ∧
      (createEvent { beOK with clientThrow := some (.error "kaboom") } dbW cinW).resp =
        errorResponse (handleDatabaseError (.error "kaboom")) ∧
      (updateEvent { beOK with clientThrow := some (.error "kaboom") } dbW 1 uinW).resp =
        errorResponse (handleDatabaseError (.error "kaboom")) ∧
      (deleteEvent { beOK with clientThrow := some (.error "kaboom") } dbW 1).resp =
        errorResponse (handleDatabaseError (.error "kaboom")) ∧
      getEvents { beOK with clientThrow := some (.error "kaboom") } dbW =
        errorResponse (handleDatabaseError (.error "kaboom"))) :=
  ⟨rfl, rfl, rfl, rfl, rfl, rfl, rfl, rfl, rfl, rfl, rfl, rfl, rfl, rfl,
    backendRejections_surfaced_verbatim
      { beOK with eventInsertError := some "mI" }
      { beOK with venuesInsertError := some "mV" }
      { beOK with eventUpdateError := some "mU" }
      { beOK with eventDeleteError := some "mD" }
      { beOK with selectError := some "mS" }
      { beOK with clientThrow := some (.error "kaboom") }
      dbW 1 cinW uinW "u1" "mI" "mV" "mU" "mD" "mS" (.error "kaboom")
      rfl rfl rfl rfl rfl rfl rfl rfl rfl rfl rfl rfl rfl rfl⟩

/-- C10: updateEvent and deleteEvent never issue the user lookup and, for a
backend whose injected messages are not the authentication guard message,
never return the User not authenticated envelope; createEvent, by contrast,
opens with the user lookup whenever its first call does not throw. -/
theorem updateDelete_noAuthGuard
    (be beC : Backend) (db : DB) (id : Nat)
    (data : UpdateEventInput) (cdata : CreateEventInput)
    (hthrow : throwNotAuthMsg be)
    (h1 : be.eventUpdateError ≠ some "User not authenticated")
    (h2 : be.venuesDeleteError ≠ some "User not authenticated")
    (h3 : be.venuesInsertError ≠ some "User not authenticated")
    (h4 : be.selectError ≠ some "User not authenticated")
    (h5 : be.eventDeleteError ≠ some "User not authenticated")
    (hC : beC.clientThrow = none) :
    Op.authGetUser ∉ (updateEvent be db id data).trace ∧
    Op.authGetUser ∉ (deleteEvent be db id).trace ∧
    (updateEvent be db id data).resp ≠ errorResponse "User not authenticated" ∧
    (deleteEvent be db id).resp ≠ errorResponse "User not authenticated" ∧
    (createEvent beC db cdata).trace.head? = some Op.authGetUser := by
  refine ⟨?_, ?_, ?_, ?_, ?_⟩
  · unfold updateEvent
    rcases hct : be.clientThrow with _ | v
    · rcases hupd : be.eventUpdateError with _ | m
      · rcases hv : data.venues with _ | vs
        · simp [finishRead_trace]
        · rcases hdel : be.venuesDeleteError with _ | m
          · rcases hins : be.venuesInsertError with _ | m
            · simp [finishRead_trace]
            · simp
          · simp
      · simp
    · simp
  · unfold deleteEvent
    rcases hct : be.clientThrow with _ | v
    · rcases hd : be.eventDeleteError with _ | m <;> simp
    · simp
  · unfold updateEvent
    rcases hct : be.clientThrow with _ | v
    · rcases hupd : be.eventUpdateError with _ | m
      · rcases hv : data.venues with _ | vs
        · exact finishRead_resp_ne_auth be _ id _ hct h4
        · rcases hdel : be.venuesDeleteError with _ | m
          · rcases hins : be.venuesInsertError with _ | m
            · exact finishRead_resp_ne_auth be _ id _ hct h4
            · simp only [errorResponse]
              intro hc
              have : m = "User not authenticated" := by injection hc
              exact h3 (this ▸ hins)
          · simp only [errorResponse]
            intro hc
            have : m = "User not authenticated" := by injection hc
            exact h2 (this ▸ hdel)
      · simp only [errorResponse]
        intro hc
        have : m = "User not authenticated" := by injection hc
        exact h1 (this ▸ hupd)
    · simp only [handleActionError, errorResponse]
      intro hc
      have : handleDatabaseError v = "User not authenticated" := by injection hc
      exact hthrow v hct this
  · unfold deleteEvent
    rcases hct : be.clientThrow with _ | v
    · rcases hd : be.eventDeleteError with _ | m
      · simp [successResponse, errorResponse]
      · simp only [errorResponse]
        intro hc
        have : m = "User not authenticated" := by injection hc
        exact h5 (this ▸ hd)
    · simp only [handleActionError, errorResponse]
      intro hc
      have : handleDatabaseError v = "User not authenticated" := by injection hc
      exact hthrow v hct this
  · unfold createEvent
    rcases hau : beC.authUser with m | u
    · simp [hC]
    · rcases u with _ | uid
      · simp [hC]
      · rcases hie : beC.eventInsertError with _ | m
        · rcases hve : beC.venuesInsertError with _ | m
          · simp [hC, finishRead_trace]
          · simp [hC]
        · simp [hC]

/-- Witness for C10 at the everything-succeeds backend. -/
theorem updateDelete_noAuthGuard_witness :
    throwNotAuthMsg beOK ∧
    beOK.eventUpdateError ≠ some "User not authenticated" ∧
    beOK.venuesDeleteError ≠ some "User not authenticated" ∧
    beOK.venuesInsertError ≠ some "User not authenticated" ∧
    beOK.selectError ≠ some "User not authenticated" ∧
    beOK.eventDeleteError ≠ some "User not authenticated" ∧
    beOK.clientThrow = none ∧
    (Op.authGetUser ∉ (updateEvent beOK dbW 1 uinW).trace ∧
      Op.authGetUser ∉ (deleteEvent beOK dbW 1).trace ∧
      (updateEvent beOK dbW 1 uinW).resp ≠ errorResponse "User not authenticated" ∧
      (deleteEvent beOK dbW 1).resp ≠ errorResponse "User not authenticated" ∧
      (createEvent beOK dbW cinW).trace.head? = some Op.authGetUser) :=
  ⟨fun v h => Option.noConfusion h, by decide, by decide, by decide, by decide,
    by decide, rfl,
    updateDelete_noAuthGuard beOK beOK dbW 1 uinW cinW
      (fun v h => Option.noConfusion h) (by decide) (by decide) (by decide)
      (by decide) (by decide) rfl⟩

end Fastbreak
